import Mathlib

/-!
# Verification of the chauffeur parameter-study driver

Shallow embedding of `src/chauffeur.py` (a parameter-study driver that
expands variable spaces into run instances, interpolates `%(name)`
references over layered namespaces, renders template files and builds a
PBS submission script), together with theorems settling the frozen claims
about its specification.

Python strings are modelled as `List Char`; Python values reaching the
interpolator as the inductive `Value`; fatal `abort` calls and Python
exceptions as `Except Err`.
-/

set_option autoImplicit false

namespace Chauffeur

/-- Python strings, modelled as lists of characters. -/
abbrev Str := List Char

/-- Shorthand turning a Lean string literal into a `Str`. -/
def cs (s : String) : Str := s.data

/-- The Python values that flow through the driver's data tables and the
interpolator: strings, integers, booleans and `None`.  (Floats do not occur
in any claim and are not modelled.) -/
inductive Value where
  | vStr (s : Str)
  | vInt (n : Int)
  | vBool (b : Bool)
  | vNone
  deriving DecidableEq, Repr

/-- The fatal conditions of the driver (each `abort(...)` call and the
Python exceptions its expressions can raise), plus `fuelExhausted`, the
model's marker for executions of the source that do not terminate. -/
inductive Err where
  /-- `abort('Maximum number of recursions exceeded ...')`, line 300. -/
  | recursionLimit
  /-- `abort('Potentially malformed string ...')`, line 323. -/
  | malformed (s : Str)
  /-- `abort('Unable to fully resolve ...')`, line 360. -/
  | unresolved (name : Str)
  /-- `abort('Odd number of evaluator characters ...')`, line 402. -/
  | oddBackticks (s : Str)
  /-- A Python exception raised by `eval` on text that is not a valid
  arithmetic expression. -/
  | evalError
  /-- A format spec outside the fragment of Python `format` modelled here. -/
  | unmodeledFormat
  /-- `TypeError` raised by `{**a, **b}` when `b` is not a mapping. -/
  | typeError
  /-- `abort('Parameter template file is None!')`, line 446. -/
  | noneTemplate
  /-- `IOError` from `open` on a missing file. -/
  | ioError (p : Str)
  /-- `abort('No executable set in input file')`, line 534. -/
  | missingExecutable
  /-- `abort` on an unknown configuration key. -/
  | configError
  /-- Model marker: the source's scan loop does not advance (the Python
  code diverges here); never reached by a terminating source execution. -/
  | fuelExhausted
  deriving DecidableEq, Repr

instance {ε α : Type} [DecidableEq ε] [DecidableEq α] :
    DecidableEq (Except ε α) := fun
  | .ok a, .ok b =>
    if h : a = b then .isTrue (by rw [h])
    else .isFalse (by intro he; cases he; exact h rfl)
  | .ok _, .error _ => .isFalse (by intro h; cases h)
  | .error _, .ok _ => .isFalse (by intro h; cases h)
  | .error e, .error f =>
    if h : e = f then .isTrue (by rw [h])
    else .isFalse (by intro he; cases he; exact h rfl)

/-! ## Python string primitives -/

/-- Helper for `pyFind`: first index `≥ i` at which `pat` occurs in the
remaining suffix (the suffix is the recursion argument). -/
def findIdxFrom (pat : Str) : Str → Nat → Option Nat
  | [], i => if pat = [] then some i else none
  | c :: rest, i =>
    if pat.isPrefixOf (c :: rest) then some i else findIdxFrom pat rest (i + 1)

/-- Python `s.find(pat, start)`: index of the first occurrence of `pat` at
or after `start`, `none` standing for Python's `-1`. -/
def pyFind (s pat : Str) (start : Nat) : Option Nat :=
  findIdxFrom pat (s.drop start) start

/-- Normalise a (possibly negative) Python index against a length. -/
def pyIdx (len : Nat) (i : Int) : Int := if i < 0 then (len : Int) + i else i

/-- Python slice `s[a:b]` (negative bounds count from the end). -/
def pySlice (s : Str) (a b : Int) : Str :=
  let a' := (max (pyIdx s.length a) 0).toNat
  let b' := (max (pyIdx s.length b) 0).toNat
  (s.take b').drop a'

/-- Helper for `pyReplace`: replace occurrences of the nonempty pattern
`old` left to right; `fuel` bounds the scan (one unit per character). -/
def replAux (old new : Str) : Nat → Str → Str
  | 0, s => s
  | _ + 1, [] => []
  | fuel + 1, c :: rest =>
    if old ≠ [] ∧ old.isPrefixOf (c :: rest) then
      new ++ replAux old new fuel ((c :: rest).drop old.length)
    else
      c :: replAux old new fuel rest

/-- Python `s.replace(old, new)`: replace every (non-overlapping,
left-to-right) occurrence of `old` by `new`; an empty `old` inserts `new`
before every character and at the end, as in Python. -/
def pyReplace (s old new : Str) : Str :=
  if old = [] then new ++ s.flatMap (fun c => c :: new)
  else replAux old new s.length s

/-- Index of the last occurrence of character `c` in `s`, if any. -/
def pyRFindChar (s : Str) (c : Char) : Option Nat :=
  (backtrack s 0 none)
where
  backtrack : Str → Nat → Option Nat → Option Nat
    | [], _, best => best
    | d :: rest, i, best =>
      backtrack rest (i + 1) (if d = c then some i else best)

/-- Decimal digits of a natural number, most significant first
(`fuel`-bounded division loop; `fuel = n + 1` always suffices). -/
def natReprAux : Nat → Nat → Str
  | 0, _ => []
  | fuel + 1, n =>
    if n < 10 then [Char.ofNat (48 + n)]
    else natReprAux fuel (n / 10) ++ [Char.ofNat (48 + n % 10)]

/-- Python `str(n)` for a natural number. -/
def natRepr (n : Nat) : Str := natReprAux (n + 1) n

/-- Python `str(n)` for an integer. -/
def intRepr : Int → Str
  | .ofNat n => natRepr n
  | .negSucc m => '-' :: natRepr (m + 1)

/-- Python `'{}'.format(v)` / `str(v)` on a modelled value. -/
def pyStr : Value → Str
  | .vStr s => s
  | .vInt n => intRepr n
  | .vBool true => cs "True"
  | .vBool false => cs "False"
  | .vNone => cs "None"

/-! ## Expression evaluation (`evaluateStr`, lines 391-414)

The source calls Python's unrestricted `eval` on the text of a backtick
expression.  `pyEval` models `eval` on the integer-arithmetic fragment
(integer literals combined with `+`, `-`, `*`); any other input — in
particular text containing a stray backtick — raises an exception in
Python and is `evalError` here. -/

/-- A token of the modelled arithmetic fragment. -/
inductive Tok where
  | num (n : Nat)
  | plus
  | minus
  | star
  deriving DecidableEq, Repr

/-- Tokenizer for the arithmetic fragment; `pending` carries the digits of
a numeric literal currently being read. -/
def tokAux : Str → Option Nat → Option (List Tok)
  | [], none => some []
  | [], some n => some [Tok.num n]
  | c :: rest, pending =>
    if c.isDigit then
      tokAux rest (some ((pending.getD 0) * 10 + (c.toNat - 48)))
    else
      let flush : List Tok := match pending with
        | some n => [Tok.num n]
        | none => []
      let tok : Option Tok :=
        if c = '+' then some .plus
        else if c = '-' then some .minus
        else if c = '*' then some .star
        else none
      if c = ' ' then (tokAux rest none).map (flush ++ ·)
      else
        match tok with
        | some t => (tokAux rest none).map (fun ts => flush ++ t :: ts)
        | none => none

/-- Multiplicative chain: `acc` already parsed, consume `* num` factors. -/
def parseTermAux : Nat → Int → List Tok → Option (Int × List Tok)
  | 0, _, _ => none
  | fuel + 1, acc, .star :: .num n :: rest => parseTermAux fuel (acc * n) rest
  | _ + 1, _, .star :: _ => none
  | _ + 1, acc, toks => some (acc, toks)

/-- Parse one term (`num (* num)*`). -/
def parseTerm (fuel : Nat) : List Tok → Option (Int × List Tok)
  | .num n :: rest => parseTermAux fuel (n : Int) rest
  | _ => none

/-- Additive chain over terms. -/
def parseExprAux : Nat → Int → List Tok → Option Int
  | 0, _, _ => none
  | _ + 1, acc, [] => some acc
  | fuel + 1, acc, .plus :: ts =>
    match parseTerm fuel ts with
    | some (v, ts') => parseExprAux fuel (acc + v) ts'
    | none => none
  | fuel + 1, acc, .minus :: ts =>
    match parseTerm fuel ts with
    | some (v, ts') => parseExprAux fuel (acc - v) ts'
    | none => none
  | _ + 1, _, _ => none

/-- Model of Python `eval` on the integer-arithmetic fragment. -/
def pyEval (s : Str) : Except Err Value :=
  match tokAux s none with
  | none => .error .evalError
  | some ts =>
    match parseTerm (ts.length + 1) ts with
    | some (v, ts') =>
      match parseExprAux (ts.length + 1) v ts' with
      | some r => .ok (.vInt r)
      | none => .error .evalError
    | none => .error .evalError

/-- Helper for `backtickIdxs`: enumerate from index `i`. -/
def backtickIdxsAux : Str → Nat → List Nat
  | [], _ => []
  | c :: rest, i =>
    if c = '`' then i :: backtickIdxsAux rest (i + 1)
    else backtickIdxsAux rest (i + 1)

/-- Indices of the backtick characters of `s`
(`[i for i, char in enumerate(inStr) if char == '`']`, line 395). -/
def backtickIdxs (s : Str) : List Nat := backtickIdxsAux s 0

/-- Body of `evaluateStr` on the characters of a string value, lines 395-414.
With two backticks the source evaluates `inStr[1:-1]` — the whole string
minus its first and last character, not the text between the backticks.
With four or more it recurses on `inStr[inds[0]+1 : inds[-1]-1]`.  `fuel`
bounds the recursion; the recursive argument is strictly shorter, so
`s.length + 1` units always suffice. -/
def evaluateChars : Nat → Str → Except Err Value
  | 0, _ => .error .fuelExhausted
  | fuel + 1, s =>
    let inds := backtickIdxs s
    if inds.length = 0 then .ok (.vStr s)
    else if inds.length % 2 ≠ 0 then .error (.oddBackticks s)
    else if inds.length = 2 then pyEval (pySlice s 1 (-1))
    else evaluateChars fuel (pySlice s ((inds.headD 0 : Nat) + 1) ((inds.getLastD 0 : Nat) - 1 : Int))

/-- Model of `evaluateStr`, lines 391-414: non-strings pass through unchanged. -/
def evaluateStr : Value → Except Err Value
  | .vStr s => evaluateChars (s.length + 1) s
  | v => .ok v

/-! ## Namespaces and name resolution -/

/-- Python dict lookup on an association list (first binding wins, which is
how the merged dict models below are arranged). -/
def lookupKey (d : List (Str × Value)) (k : Str) : Option Value :=
  (d.find? (fun p => p.1 = k)).map (fun p => p.2)

/-- The global context of the driver process: the data `interpolateString`
reads besides its arguments (`getThreadInfo()`, the `userData` and
`driverData` globals), plus the process data used elsewhere (`os.getcwd()`,
the user's home directory, the `fmtLong` table built by `initDriverData`). -/
structure Ctx where
  threadName : Str
  cwd : Str
  home : Str
  userData : List (Str × Value)
  driverData : List (Str × Value)
  fmtLongInt : Option Str
  deriving Repr

/-- Model of `getThreadInfo()`, lines 110-115: a dict with the current thread name. -/
def threadInfoOf (ctx : Ctx) : List (Str × Value) :=
  [(cs "thread", .vStr ctx.threadName)]

/-- The resolution sequence of `interpolateString`, lines 346-358: start
from `None` and successively overwrite with the thread-info, input-data,
user-data and driver-data bindings when the key is present, so the later
tables take precedence.  A key present with value `None` overwrites like
any other. -/
def resolveName (threadInfo : List (Str × Value))
    (inputData : Option (List (Str × Value)))
    (userData driverData : List (Str × Value)) (k : Str) : Value :=
  let r := Value.vNone
  let r := match lookupKey threadInfo k with
    | some v => v
    | none => r
  let r := match inputData with
    | some d =>
      match lookupKey d k with
      | some v => v
      | none => r
    | none => r
  let r := match lookupKey userData k with
    | some v => v
    | none => r
  match lookupKey driverData k with
  | some v => v
  | none => r

/-! ## Formatting (lines 370-375) -/

/-- Model of Python `('{:' + fmt + '}').format(v)` on the specs the claims
exercise: `d` on an integer and the empty spec.  Anything else is outside
the modelled fragment. -/
def pyFormatSpec (fmt : Str) (v : Value) : Except Err Str :=
  if fmt = cs "d" then
    match v with
    | .vInt n => .ok (intRepr n)
    | _ => .error .unmodeledFormat
  else if fmt = [] then .ok (pyStr v)
  else .error .unmodeledFormat

/-- Lines 370-375: an inline format spec wins, else a type-keyed entry of
the caller-supplied format table (whose only modelled key is `int`), else
generic `'{}'.format`. -/
def formatResolved (inlineFmt : Option Str) (inputFmt : Option (Option Str))
    (v : Value) : Except Err Str :=
  match inlineFmt with
  | some f => pyFormatSpec f v
  | none =>
    match inputFmt with
    | some tbl =>
      match v, tbl with
      | .vInt n, some f => pyFormatSpec f (.vInt n)
      | _, _ => .ok (pyStr v)
    | none => .ok (pyStr v)

/-! ## The interpolator (`interpolateString`, lines 282-385)

`interpolateString(inStr, inputData, inputFmt, nCalls)` is modelled by
`interpStep`.  An `ICall.top v n` is an invocation of the function on value
`v` with `nCalls = n`; an `ICall.loop n inStr outStr countBeg` is one
iteration of its `while True:` scan loop.  `fuel` decreases by one on every
call; since the recursion depth is capped at `MAX_RECURS = 10` and each
loop iteration advances `countBeg`, any terminating source execution is
reproduced under the ample fuel supplied by `interpolateString` below, and
executions on which the source diverges (the scan loop can fail to advance
when an unclosed `%(` sits at index 0 and its truncated name resolves)
end in the model marker `fuelExhausted`. -/

/-- A pending activation of the interpolator. -/
inductive ICall where
  | top (v : Value) (nCalls : Nat)
  | loop (nCalls : Nat) (inStr outStr : Str) (countBeg : Nat)

/-- One fuel-indexed step semantics for `interpolateString`; see the
section comment.  Mirrors lines 287-385 of the source. -/
def interpStep (ctx : Ctx) (inputData : Option (List (Str × Value)))
    (inputFmt : Option (Option Str)) : Nat → ICall → Except Err Value
  | 0, _ => .error .fuelExhausted
  | fuel + 1, .top v n =>
    match v with
    | .vNone => .ok .vNone
    | .vInt i => .ok (.vInt i)
    | .vBool b => .ok (.vBool b)
    | .vStr s =>
      if n ≥ 10 then .error .recursionLimit
      else interpStep ctx inputData inputFmt fuel (.loop n s s 0)
  | fuel + 1, .loop n inStr outStr countBeg =>
    match pyFind inStr (cs "%(") countBeg with
    | none => .ok (.vStr outStr)
    | some iB =>
      let iEnd? := pyFind inStr (cs ")") (iB + 1)
      if iB > 0 ∧ iEnd? = none then .error (.malformed inStr)
      else
        let iEnd : Int := match iEnd? with
          | some e => (e : Int)
          | none => -1
        let sub0 := pySlice inStr ((iB : Int) + 2) iEnd
        let sub := match pyFind sub0 (cs ":") 0 with
          | some t => sub0.take t
          | none => sub0
        let inlineFmt := match pyFind sub0 (cs ":") 0 with
          | some t => some (sub0.drop (t + 1))
          | none => none
        let rv := resolveName (threadInfoOf ctx) inputData ctx.userData
          ctx.driverData sub
        if rv = .vNone then .error (.unresolved sub)
        else do
          let rv ← interpStep ctx inputData inputFmt fuel (.top rv (n + 1))
          let rv ← evaluateStr rv
          let fStr ← formatResolved inlineFmt inputFmt rv
          let token := pySlice inStr (iB : Int) (iEnd + 1)
          interpStep ctx inputData inputFmt fuel
            (.loop n inStr (pyReplace outStr token fStr) (iEnd + 1).toNat)

/-- Total length of the string content of a namespace layer, used to size
the fuel of `interpolateString`. -/
def layerLen (l : List (Str × Value)) : Nat :=
  l.foldl (fun a p => a + p.1.length +
    (match p.2 with | .vStr s => s.length | _ => 0) + 1) 0

/-- Ample fuel for a call of the interpolator on `v` (see `interpStep`):
the recursion depth is at most 11 and every scanned string is either `v`
itself or a value drawn from one of the layers. -/
def interpFuel (ctx : Ctx) (inputData : Option (List (Str × Value)))
    (v : Value) : Nat :=
  32 * ((match v with | .vStr s => s.length | _ => 0) +
    layerLen ctx.userData + layerLen ctx.driverData +
    layerLen (threadInfoOf ctx) +
    (match inputData with | some d => layerLen d | none => 0) + 2)

/-- Model of `interpolateString(inStr, inputData, inputFmt)` with `nCalls = 0`,
lines 282-385. -/
def interpolateString (ctx : Ctx) (v : Value)
    (inputData : Option (List (Str × Value)))
    (inputFmt : Option (Option Str)) : Except Err Value :=
  interpStep ctx inputData inputFmt (interpFuel ctx inputData v) (.top v 0)

/-! ## Run-space expansion (`generateProduct`, lines 268-274) -/

/-- Model of `itertools.product` on a list of axes: the last axis varies fastest
(equivalently, the first axis is held while the tail is enumerated). -/
def itProduct : List (List Value) → List (List Value)
  | [] => [[]]
  | l :: ls => l.flatMap (fun x => (itProduct ls).map (x :: ·))

/-- Model of `generateProduct(dicts, order)`, lines 268-274: build the axes from
`reversed(order)`, take the itertools product, and zip each tuple back
with `reversed(order)` (the source's `dict(zip(reversed(order), x))`,
modelled as an association list). -/
def generateProduct (dicts : Str → List Value) (order : List Str) :
    List (List (Str × Value)) :=
  let lists := order.reverse.map dicts
  (itProduct lists).map (fun x => order.reverse.zip x)

/-! ## Paths (`resolveAbsPath`, lines 80-92, and `os.path.split`) -/

/-- Model of `resolveAbsPath`, lines 80-92: expand `~` to the home directory, then
join with the current directory when the path is not absolute.  The final
`os.path.normpath` is modelled as the identity (all paths appearing in the
claims are already normalised). -/
def resolveAbsPath (cwd home : Str) (p : Str) : Str :=
  let p1 := pyReplace p (cs "~") home
  if p1.head? = some '/' then p1 else cwd ++ cs "/" ++ p1

/-- Lift of `resolveAbsPath` to an interpolated value: `None` passes through
(line 83-84); the driver only ever feeds it strings or `None`. -/
def resolveAbsPathV (cwd home : Str) : Value → Option Str
  | .vStr s => some (resolveAbsPath cwd home s)
  | _ => none

/-- Strip trailing `/` characters, unless the string is all slashes
(mirrors how `os.path.split` treats the root). -/
def stripTrailSlashes (s : Str) : Str :=
  if s.all (· = '/') then s
  else (s.reverse.dropWhile (· = '/')).reverse

/-- Model of `os.path.split(f)`: split at the last `/` into directory and base
name. -/
def osPathSplit (f : Str) : Str × Str :=
  match pyRFindChar f '/' with
  | none => ([], f)
  | some i => (stripTrailSlashes (f.take (i + 1)), f.drop (i + 1))

/-! ## File rendering (`processSingleFile`, lines 432-463) -/

/-- One entry of `fileData` after `initFileData` (lines 243-248): every
field defaults to `None`; `parameters` is either the `None` default or the
mapping supplied in the configuration. -/
structure FileDef where
  input : Value
  output : Value
  ftype : Value
  parameters : Option (List (Str × Value))
  deriving Repr

/-- The externally visible actions of `processSingleFile`, in program
order. -/
inductive FEff where
  | readFile (p : Str)
  | writeFile (p : Str) (content : Str)
  | recordPbs (p : Str)
  deriving DecidableEq, Repr

/-- Python `{**a, **b}` (`b` wins on key collision), modelled as an
association list whose lookups agree with the merged dict. -/
def pyMergeDicts (a b : List (Str × Value)) : List (Str × Value) := b ++ a

/-- Model of `processSingleFile(fileKey, instanceData)`, lines 432-463, for the
file definition `fdef`, against a read-only file system `fs` and the
current shared `pbsFiles` list.  Returns the effect trace so far, the new
`pbsFiles`, and the error that aborted the run (if any).  The source's
`'parameters' in fileData[fileKey].keys()` test is always true because
`initFileData` stores the key (possibly `None`), so the merge
`{**data, **fileData[fileKey]['parameters']}` runs unconditionally and
raises `TypeError` when the field is `None`. -/
def processSingleFile (ctx : Ctx) (fdef : FileDef)
    (instanceData : List (Str × Value)) (fs : Str → Option Str)
    (pbsFiles : List Str) : List FEff × List Str × Option Err :=
  match fdef.parameters with
  | none => ([], pbsFiles, some .typeError)
  | some ps =>
    let data := pyMergeDicts instanceData ps
    match interpolateString ctx fdef.input (some data) none with
    | .error e => ([], pbsFiles, some e)
    | .ok tv =>
      match resolveAbsPathV ctx.cwd ctx.home tv with
      | none => ([], pbsFiles, some .noneTemplate)
      | some templatefile =>
        match fs templatefile with
        | none => ([], pbsFiles, some (.ioError templatefile))
        | some paramStr =>
          match interpolateString ctx (.vStr paramStr) (some data)
              (some ctx.fmtLongInt) with
          | .error e => ([.readFile templatefile], pbsFiles, some e)
          | .ok rendered =>
            match interpolateString ctx fdef.output (some data) none with
            | .error e => ([.readFile templatefile], pbsFiles, some e)
            | .ok ov =>
              match resolveAbsPathV ctx.cwd ctx.home ov with
              | none => ([.readFile templatefile], pbsFiles, some .noneTemplate)
              | some outputFile =>
                let wr := [FEff.readFile templatefile,
                  FEff.writeFile outputFile (pyStr rendered)]
                if fdef.ftype = .vStr (cs "pbs") then
                  (wr ++ [.recordPbs outputFile], pbsFiles ++ [outputFile],
                    none)
                else (wr, pbsFiles, none)

/-! ## PBS submission script (`constructPbsSubmitScript`, lines 465-477) -/

/-- The line written for one recorded output file, line 477:
`'cd {:s} && {:s} {:s} && cd -\n'.format(path, subcommand, file)`. -/
def pbsLine (subcommand : Str) (f : Str) : Str :=
  let pf := osPathSplit f
  cs "cd " ++ pf.1 ++ cs " && " ++ subcommand ++ cs " " ++ pf.2 ++
    cs " && cd -" ++ ['\n']

/-- The content accumulated by the write loop of lines 472-477: the
shebang header and newline, then one `pbsLine` per recorded file, written
in list order. -/
def pbsScriptContent (subcommand : Str) (pbsFiles : List Str) : Str :=
  pbsFiles.foldl (fun acc f => acc ++ pbsLine subcommand f)
    (cs "#!/bin/bash" ++ ['\n'])

/-- Model of `constructPbsSubmitScript()`, lines 465-477: nothing is written when
`pbsFiles` is empty; otherwise the interpolated `pbs_submitscript` path is
opened and the shebang header plus one line per recorded file (in list
order) are written.  Returns the script path and accumulated content. -/
def constructPbsSubmitScript (ctx : Ctx) (pbsFiles : List Str) :
    Except Err (Option (Str × Str)) :=
  if pbsFiles = [] then .ok none
  else
    match interpolateString ctx
        ((lookupKey ctx.driverData (cs "pbs_submitscript")).getD .vNone)
        none none with
    | .error e => .error e
    | .ok sv =>
      match sv with
      | .vStr subscript =>
        let subcommand :=
          pyStr ((lookupKey ctx.driverData (cs "pbs_subcommand")).getD .vNone)
        .ok (some (subscript, pbsScriptContent subcommand pbsFiles))
      | _ => .error .unmodeledFormat

/-! ## Driver initialisation (`initDriverData`, lines 122-166) -/

/-- The driver defaults, lines 126-149 (`cwd` and `scriptdir` come from the
process). -/
def driverDefaults (cwd scriptdir : Str) : List (Str × Value) :=
  [(cs "cwd", .vStr cwd),
   (cs "scriptdir", .vStr scriptdir),
   (cs "executable", .vNone),
   (cs "rundir", .vNone),
   (cs "templatefile", .vNone),
   (cs "paramfile", .vNone),
   (cs "templatedir", .vNone),
   (cs "type", .vStr (cs "exec")),
   (cs "dryrun", .vBool true),
   (cs "nthreads", .vInt 1),
   (cs "precommand", .vNone),
   (cs "execcommand", .vNone),
   (cs "postcommand", .vNone),
   (cs "pbs_submitscript", .vStr (cs "%(cwd)/pbs_submit.sh")),
   (cs "pbs_subcommand", .vStr (cs "qsub")),
   (cs "intFmtLong", .vStr (cs "d")),
   (cs "fltFmtLong", .vStr (cs "12.7e")),
   (cs "intFmtShort", .vStr (cs "05d")),
   (cs "fltFmtShort", .vStr (cs "f"))]

/-- Python `str.lower` (per-character). -/
def pyLower (s : Str) : Str := s.map Char.toLower

/-- Update the value stored under an existing key. -/
def setKey : List (Str × Value) → Str → Value → List (Str × Value)
  | [], _, _ => []
  | (k', v') :: rest, k, v =>
    if k' = k then (k', v) :: rest else (k', v') :: setKey rest k v

/-- Lines 152-157: overwrite the defaults with the configuration's
`driver` section, lower-casing keys and aborting on a key that is not a
driver option. -/
def applyDriverCfg : List (Str × Value) → List (Str × Value) →
    Except Err (List (Str × Value))
  | dd, [] => .ok dd
  | dd, (k, v) :: rest =>
    if (lookupKey dd (pyLower k)).isSome then
      applyDriverCfg (setKey dd (pyLower k) v) rest
    else .error .configError

/-- The module-level `wetRun` global at import time, line 51. -/
def wetRunInitial : Bool := true

/-- Line 166: `wetRun = not driverData['dryrun']` inside `initDriverData`.
The function has no `global wetRun` declaration, so in Python this
assignment creates a binding local to `initDriverData` and the
module-level `wetRun` read by `worker` is left unchanged. -/
def wetRunAfterInitDriverData (wetRunGlobal : Bool) (dryrun : Bool) : Bool :=
  let _wetRunLocal := !dryrun
  wetRunGlobal

/-! ## The worker (`worker`, lines 486-549) -/

/-- Lookup `driverData[k]` where `initDriverData` guarantees the key exists. -/
def dLookup (dd : List (Str × Value)) (k : Str) : Value :=
  (lookupKey dd k).getD .vNone

/-- Format `'%s' % workDir` when the path may be Python `None`. -/
def optVStr : Option Str → Str
  | some s => s
  | none => cs "None"

/-- The externally visible actions of one `worker` loop iteration, in
program order: log lines that contain the resolved working directory,
filesystem mutations, file rendering, and subprocess spawns. -/
inductive WEff where
  | logCopying (src dst : Str)
  | fsCopyTree (src dst : Str)
  | logCreating (dst : Str)
  | fsMkdir (dst : Str)
  | file (e : FEff)
  | procSpawn (cmd : Str)
  deriving DecidableEq, Repr

/-- A filesystem write or a subprocess invocation (the effects a dry run
must not perform). -/
def isMutation : WEff → Bool
  | .fsCopyTree _ _ => true
  | .fsMkdir _ => true
  | .file (.writeFile _ _) => true
  | .procSpawn _ => true
  | _ => false

/-- Model of `processFiles(instanceData)`, lines 420-425: render every declared
file in order, threading the shared `pbsFiles` list; an `abort` in
`processSingleFile` stops the process. -/
def processFiles (ctx : Ctx) (files : List FileDef)
    (instanceData : List (Str × Value)) (fs : Str → Option Str)
    (pbsFiles : List Str) : List FEff × List Str × Option Err :=
  match files with
  | [] => ([], pbsFiles, none)
  | f :: rest =>
    match processSingleFile ctx f instanceData fs pbsFiles with
    | (tr, pbs', some e) => (tr, pbs', some e)
    | (tr, pbs', none) =>
      match processFiles ctx rest instanceData fs pbs' with
      | (tr2, pbs2, err2) => (tr ++ tr2, pbs2, err2)

/-- One pre/exec/post command, lines 525-549: interpolate the configured
template with the instance data, optionally interpolate the result again
(the source does so for the pre and exec commands, not the post command),
and spawn `cd <workDir>; <command>` through the shell. -/
def cmdEffect (ctx : Ctx) (data : List (Str × Value)) (wd : Str)
    (v : Value) (reinterp : Bool) : Except Err WEff :=
  match interpolateString ctx v (some data) none with
  | .error e => .error e
  | .ok c1 =>
    if reinterp then
      match interpolateString ctx c1 none none with
      | .error e => .error e
      | .ok c2 => .ok (.procSpawn (cs "cd " ++ wd ++ cs "; " ++ pyStr c2))
    else .ok (.procSpawn (cs "cd " ++ wd ++ cs "; " ++ pyStr c1))

/-- Lines 524-549: the pre → executable-check → exec → post sequence of
`worker`, with each spawned process awaited in order. -/
def runCommands (ctx : Ctx) (data : List (Str × Value)) (wd : Str) :
    List WEff × Option Err :=
  let pre : Except Err (List WEff) :=
    match dLookup ctx.driverData (cs "precommand") with
    | .vNone => .ok []
    | pv => (cmdEffect ctx data wd pv true).map (fun e => [e])
  match pre with
  | .error e => ([], some e)
  | .ok preE =>
    if dLookup ctx.driverData (cs "executable") = .vNone then
      (preE, some .missingExecutable)
    else
      let ex : Except Err (List WEff) :=
        match dLookup ctx.driverData (cs "execcommand") with
        | .vNone => .ok []
        | ev => (cmdEffect ctx data wd ev true).map (fun e => [e])
      match ex with
      | .error e => (preE, some e)
      | .ok exE =>
        let po : Except Err (List WEff) :=
          match dLookup ctx.driverData (cs "postcommand") with
          | .vNone => .ok []
          | pv => (cmdEffect ctx data wd pv false).map (fun e => [e])
        match po with
        | .error e => (preE ++ exE, some e)
        | .ok poE => (preE ++ exE ++ poE, none)

/-- One `worker` loop iteration on run instance `data`, lines 489-549,
against a read-only template filesystem `fs`, the predicate `exists0`
describing which directories exist beforehand, and the current shared
`pbsFiles`.  `wetRun` is the module-level global the function reads. -/
def workerInstance (ctx : Ctx) (files : List FileDef)
    (fs : Str → Option Str) (exists0 : Str → Bool)
    (data : List (Str × Value)) (pbsFiles : List Str) (wetRun : Bool) :
    List WEff × List Str × Option Err :=
  match interpolateString ctx (dLookup ctx.driverData (cs "rundir"))
      (some data) none with
  | .error e => ([], pbsFiles, some e)
  | .ok wdV =>
    let workDir? := resolveAbsPathV ctx.cwd ctx.home wdV
    let wd := optVStr workDir?
    let tdV := dLookup ctx.driverData (cs "templatedir")
    let copyEffs :=
      match tdV with
      | .vNone => []
      | td => [WEff.logCopying (pyStr td) wd] ++
          (if wetRun then [WEff.fsCopyTree (pyStr td) wd] else [])
    if wetRun then
      let existsNow := exists0 wd || !(decide (tdV = .vNone))
      let mkEffs :=
        if existsNow then [] else [WEff.logCreating wd, WEff.fsMkdir wd]
      match processFiles ctx files data fs pbsFiles with
      | (ftr, pbs', some e) =>
        (copyEffs ++ mkEffs ++ ftr.map WEff.file, pbs', some e)
      | (ftr, pbs', none) =>
        let fileEffs := ftr.map WEff.file
        if dLookup ctx.driverData (cs "type") = .vStr (cs "param_only") ∨
            dLookup ctx.driverData (cs "type") = .vStr (cs "setup") then
          (copyEffs ++ mkEffs ++ fileEffs, pbs', none)
        else
          match runCommands ctx data wd with
          | (cmdE, err) => (copyEffs ++ mkEffs ++ fileEffs ++ cmdE, pbs', err)
    else (copyEffs, pbsFiles, none)

/-! ## Concrete environments used by the claim theorems -/

/-- The driver table of the worked dry-run scenario: `dryrun` enabled, a
template directory, a run directory, pre/exec commands and an executable
configured on top of the defaults. -/
def ddEx : List (Str × Value) :=
  (applyDriverCfg (driverDefaults (cs "/w") (cs "/w/chauffeur.py"))
    [(cs "dryrun", .vBool true), (cs "templatedir", .vStr (cs "/tpl")),
     (cs "rundir", .vStr (cs "/runs/r1")),
     (cs "precommand", .vStr (cs "echo hi")),
     (cs "executable", .vStr (cs "/bin/sim")),
     (cs "execcommand", .vStr (cs "run"))]).toOption.getD []

/-- Process context for the worked scenarios. -/
def ctxEx : Ctx where
  threadName := cs "00"
  cwd := cs "/w"
  home := cs "/h"
  userData := []
  driverData := ddEx
  fmtLongInt := some (cs "d")

/-- A context whose only user binding is `a ↦ "%"`. -/
def ctxPercent : Ctx where
  threadName := cs "00"
  cwd := cs "/w"
  home := cs "/h"
  userData := [(cs "a", .vStr (cs "%"))]
  driverData := []
  fmtLongInt := none

/-- The candidate table of the odometer example:
`{a: [1, 2], b: [10, 20]}`. -/
def exDicts : Str → List Value := fun v =>
  if v = cs "a" then [.vInt 1, .vInt 2] else [.vInt 10, .vInt 20]

/-- A file definition whose optional `parameters` field was omitted and so
kept its `None` default. -/
def fdefNone : FileDef where
  input := .vStr (cs "/t.in")
  output := .vStr (cs "/out.txt")
  ftype := .vStr (cs "batch")
  parameters := none

/-- A file definition tagged with the literal type `"batch"`. -/
def fdefBatch : FileDef where
  input := .vStr (cs "/t.in")
  output := .vStr (cs "/out.txt")
  ftype := .vStr (cs "batch")
  parameters := some []

/-- A file definition tagged with the literal type `"pbs"`. -/
def fdefPbs : FileDef where
  input := .vStr (cs "/t.in")
  output := .vStr (cs "/out.txt")
  ftype := .vStr (cs "pbs")
  parameters := some []

/-- A one-file read-only filesystem holding the template `/t.in`. -/
def fsEx : Str → Option Str := fun p =>
  if p = cs "/t.in" then some (cs "hello") else none

/-! ## Claim C2: the recursion boundary of reference chains -/

/-- The canonical chain variable names `x1, x2, ...`. -/
def chainName (i : Nat) : Str := 'x' :: natRepr i

/-- The reference token `%(name)`. -/
def refTok (name : Str) : Str := cs "%(" ++ name ++ cs ")"

/-- A reference chain of depth `d`: `x1 ↦ "%(x2)", ..., x(d-1) ↦ "%(xd)"`,
and `xd ↦ terminal`, a plain value. -/
def chainLayer (d : Nat) (terminal : Value) : List (Str × Value) :=
  ((List.range (d - 1)).map
    (fun i => (chainName (i + 1), Value.vStr (refTok (chainName (i + 2)))))) ++
  [(chainName d, terminal)]

/-- Context whose user data is a depth-`d` reference chain. -/
def chainCtx (d : Nat) (t : Value) : Ctx where
  threadName := cs "00"
  cwd := cs "/w"
  home := cs "/h"
  userData := chainLayer d t
  driverData := []
  fmtLongInt := none

/-- Interpolating the template `"%(x1)"` against a depth-`d` chain. -/
def chainInterp (d : Nat) (t : Value) : Except Err Value :=
  interpolateString (chainCtx d t) (.vStr (refTok (chainName 1))) none none


/-! ## Run-space expansion lemmas and claim C5 -/

/-- The itertools product has as many tuples as the product of the axis
lengths. -/
theorem itProduct_length (ls : List (List Value)) :
    (itProduct ls).length = (ls.map List.length).prod := by
  induction ls with
  | nil => simp [itProduct]
  | cons l t ih =>
    simp only [itProduct, List.length_flatMap, List.map_cons, List.prod_cons]
    have h : List.map (List.length ∘ fun x => (itProduct t).map (x :: ·)) l =
        List.replicate l.length (itProduct t).length := by
      simp [Function.comp_def]
    rw [h, ih]
    simp [List.sum_replicate, smul_eq_mul]

/-- Every tuple of the itertools product has one entry per axis. -/
theorem itProduct_mem_length {ls : List (List Value)} {r : List Value}
    (h : r ∈ itProduct ls) : r.length = ls.length := by
  induction ls generalizing r with
  | nil =>
    simp [itProduct] at h
    simp [h]
  | cons l t ih =>
    simp only [itProduct, List.mem_flatMap, List.mem_map] at h
    obtain ⟨x, _, r', hr', rfl⟩ := h
    simp [ih hr']

/-- Appending one axis at the end of the product nests it innermost: the
new axis varies fastest. -/
theorem itProduct_append_singleton (ls : List (List Value)) (l : List Value) :
    itProduct (ls ++ [l]) =
      (itProduct ls).flatMap (fun r => l.map (fun x => r ++ [x])) := by
  induction ls with
  | nil =>
    have h : ∀ l' : List Value, (l'.flatMap fun x => [[x]]) =
        l'.map (fun x => [x]) := by
      intro l'
      induction l' <;> simp_all
    simp [itProduct, h]
  | cons a t ih =>
    simp only [List.cons_append]
    rw [show itProduct (a :: (t ++ [l])) =
      a.flatMap (fun x => (itProduct (t ++ [l])).map (x :: ·)) from rfl]
    rw [ih]
    rw [show itProduct (a :: t) =
      a.flatMap (fun x => (itProduct t).map (x :: ·)) from rfl]
    simp [List.map_flatMap, List.flatMap_map, List.map_map, List.flatMap_assoc,
      Function.comp_def, List.cons_append]

/-- Claim C5, part 2 as a standalone lemma: prepending a variable to the
order makes it the fastest-changing one — the instances of the remaining
variables are enumerated in the outer loop and the new variable's
candidates in the inner loop. -/
theorem generateProduct_cons (dicts : Str → List Value) (v : Str)
    (order : List Str) :
    generateProduct dicts (v :: order) =
      (generateProduct dicts order).flatMap
        (fun r => (dicts v).map (fun x => r ++ [(v, x)])) := by
  unfold generateProduct
  simp only [List.reverse_cons, List.map_append, List.map_cons, List.map_nil]
  rw [itProduct_append_singleton, List.map_flatMap, List.flatMap_map]
  refine List.flatMap_congr (fun r hr => ?_)
  have hlen : (List.reverse order).length = r.length := by
    have := itProduct_mem_length hr
    simp only [List.length_map] at this
    simp [this]
  simp only [List.map_map]
  refine List.map_congr_left (fun x _ => ?_)
  simp only [Function.comp_apply]
  rw [List.zip_append hlen]
  simp

/-- Claim C5: expansion of a run group yields exactly the product of the
per-variable candidate counts, in odometer order with the first-listed
variable changing fastest; together with the worked example
`{a:[1,2], b:[10,20]}`, order `[a,b]` ⇒
`(a=1,b=10),(a=2,b=10),(a=1,b=20),(a=2,b=20)`. -/
theorem C5_product_odometer :
    (∀ (dicts : Str → List Value) (order : List Str),
      (generateProduct dicts order).length =
        (order.map (fun v => (dicts v).length)).prod) ∧
    (∀ (dicts : Str → List Value) (v : Str) (order : List Str),
      generateProduct dicts (v :: order) =
        (generateProduct dicts order).flatMap
          (fun r => (dicts v).map (fun x => r ++ [(v, x)]))) ∧
    ((generateProduct exDicts [cs "a", cs "b"]).map
        (fun r => (lookupKey r (cs "a"), lookupKey r (cs "b"))) =
      [(some (.vInt 1), some (.vInt 10)), (some (.vInt 2), some (.vInt 10)),
       (some (.vInt 1), some (.vInt 20)),
       (some (.vInt 2), some (.vInt 20))]) := by
  refine ⟨fun dicts order => ?_, generateProduct_cons, by decide⟩
  unfold generateProduct
  simp only [List.length_map, itProduct_length, List.map_map]
  rw [List.map_reverse, List.prod_reverse]
  simp [Function.comp_def]

/-! ## Claim C2 theorems -/

/-- Claim C2, counterexample: the claim states that every reference chain
of depth exactly 10 resolves successfully, but the depth-10 chain whose
final plain value is the string `"v"` fails with the recursion-limit
abort: `interpolateString` checks `nCalls >= MAX_RECURS` on every
string argument (line 299) before scanning it, and the terminal string is
reached at recursion depth 10. -/
theorem C2_counterexample :
    chainInterp 10 (.vStr (cs "v")) = .error .recursionLimit := by decide

/-- Claim C2, amended: with the recursion limit at its default 10, the
depth-10 chain ending in the non-string plain value `42` resolves
successfully (to `"42"`), the depth-11 chain fails with the
recursion-limit abort, and a depth-10 chain ending in a plain *string*
value also fails with the recursion-limit abort (plain strings cost one
further recursion level; non-strings return before the depth check). -/
theorem C2_amended_recursion_boundary :
    chainInterp 10 (.vInt 42) = .ok (.vStr (cs "42")) ∧
    chainInterp 11 (.vInt 42) = .error .recursionLimit ∧
    chainInterp 10 (.vStr (cs "plain")) = .error .recursionLimit := by
  refine ⟨by decide, by decide, by decide⟩

/-! ## Claim C3: single backtick pairs in the expression evaluator -/

/-- Claim C3, counterexample: the string `"x`1+2`"` contains exactly one
pair of backticks, yet `evaluateStr` does not evaluate the enclosed text
`1+2` and keep the literal `x`: it evaluates `inStr[1:-1]` — here the text
`` `1+2 `` — which is not a valid expression, so the call raises instead
of producing `"x3"`. -/
theorem C3_counterexample :
    evaluateStr (.vStr (cs "x`1+2`")) = .error .evalError ∧
    .error .evalError ≠ (.ok (.vStr (cs "x3")) : Except Err Value) := by
  refine ⟨by decide, by decide⟩

/-- With no backtick inside `mid`, the backticks of `mid ++ ['`']` sit
exactly at the end. -/
theorem backtickIdxsAux_clean_append (mid : Str) (h : '`' ∉ mid) :
    ∀ i, backtickIdxsAux (mid ++ ['`']) i = [i + mid.length] := by
  induction mid with
  | nil => intro i; simp [backtickIdxsAux]
  | cons c m ih =>
    intro i
    have hc : c ≠ '`' := fun hc => h (by simp [hc])
    show backtickIdxsAux ((c :: m) ++ ['`']) i = _
    rw [show ((c :: m) ++ ['`']) = c :: (m ++ ['`']) from rfl]
    rw [show backtickIdxsAux (c :: (m ++ ['`'])) i =
        (if c = '`' then i :: backtickIdxsAux (m ++ ['`']) (i + 1)
         else backtickIdxsAux (m ++ ['`']) (i + 1)) from rfl]
    rw [if_neg hc, ih (fun hm => h (List.mem_cons_of_mem _ hm)) (i + 1)]
    simp only [List.length_cons]
    congr 1
    omega

/-- Claim C3, amended: when the single backtick pair spans the whole
string — the first and last characters are the backticks and no literal
text surrounds them — `evaluateStr` does evaluate exactly the enclosed
text (the slice `inStr[1:-1]` then coincides with it).  When literal text
lies outside the pair the slice drags that text and a backtick into `eval`
(counterexample above). -/
theorem C3_amended_single_pair (mid : Str) (h : '`' ∉ mid) :
    evaluateStr (.vStr ('`' :: mid ++ ['`'])) = pyEval mid := by
  have hidx : backtickIdxs ('`' :: mid ++ ['`']) = [0, mid.length + 1] := by
    show backtickIdxsAux ('`' :: (mid ++ ['`'])) 0 = _
    rw [show backtickIdxsAux ('`' :: (mid ++ ['`'])) 0 =
        0 :: backtickIdxsAux (mid ++ ['`']) 1 from rfl]
    rw [backtickIdxsAux_clean_append mid h 1]
    congr 2
    omega
  have hslice : pySlice ('`' :: mid ++ ['`']) 1 (-1) = mid := by
    show (('`' :: mid ++ ['`']).take
        ((max (pyIdx ('`' :: mid ++ ['`']).length (-1)) 0).toNat)).drop
        ((max (pyIdx ('`' :: mid ++ ['`']).length 1) 0).toNat) = mid
    have h2 : (max (pyIdx ('`' :: mid ++ ['`']).length (-1)) 0).toNat =
        mid.length + 1 := by
      simp [pyIdx]
      omega
    have h1 : (max (pyIdx ('`' :: mid ++ ['`']).length 1) 0).toNat = 1 := by
      simp [pyIdx]
    rw [h2, h1]
    rw [show ('`' :: mid ++ ['`']) = ('`' :: mid) ++ ['`'] from rfl]
    rw [show mid.length + 1 = ('`' :: mid).length by simp]
    rw [List.take_left]
    simp
  show evaluateChars (('`' :: mid ++ ['`']).length + 1) ('`' :: mid ++ ['`']) =
    pyEval mid
  rw [show ('`' :: mid ++ ['`']).length + 1 = (mid.length + 2) + 1 by simp]
  rw [evaluateChars, hidx, hslice]
  simp

/-- Witness for the amended claim C3 at `mid = "1+2"`: the expression
evaluates to 3. -/
theorem C3_amended_single_pair_witness :
    ('`' ∉ cs "1+2") ∧
    evaluateStr (.vStr ('`' :: cs "1+2" ++ ['`'])) = pyEval (cs "1+2") ∧
    pyEval (cs "1+2") = .ok (.vInt 3) :=
  ⟨by decide, C3_amended_single_pair (cs "1+2") (by decide), by decide⟩

/-! ## Claim C1: the dry-run flag -/

/-- Claim C1, code bug: `initDriverData` computes
`wetRun = not driverData['dryrun']` without declaring `global wetRun`
(line 166), so the module-level `wetRun` stays `True` and a dry run is
never actually dry.  With `dryrun: true` configured, processing the worked
run instance still copies the template directory and spawns the pre and
exec commands; had the assignment updated the global (`wetRun = False`),
the instance would produce only the log line carrying the resolved
working-directory path, exactly as the claim describes. -/
theorem C1_dryrun_code_bug :
    wetRunAfterInitDriverData wetRunInitial true = true ∧
    dLookup ddEx (cs "dryrun") = .vBool true ∧
    (workerInstance ctxEx [] (fun _ => none) (fun _ => false) [] []
        (wetRunAfterInitDriverData wetRunInitial true)).1 =
      [.logCopying (cs "/tpl") (cs "/runs/r1"),
       .fsCopyTree (cs "/tpl") (cs "/runs/r1"),
       .procSpawn (cs "cd /runs/r1; echo hi"),
       .procSpawn (cs "cd /runs/r1; run")] ∧
    ((workerInstance ctxEx [] (fun _ => none) (fun _ => false) [] []
        (wetRunAfterInitDriverData wetRunInitial true)).1.any isMutation
      = true) ∧
    (workerInstance ctxEx [] (fun _ => none) (fun _ => false) [] [] false).1 =
      [.logCopying (cs "/tpl") (cs "/runs/r1")] := by
  refine ⟨rfl, by decide, by decide, by decide, by decide⟩

/-! ## Claim C4: unclosed reference markers -/

/-- Claim C4, counterexample: the claim demands `MalformedTemplate` for
every template with an unclosed `%(`, but the malformed-string check of
line 322 tests `indBeg > 0`, so an unclosed marker at index 0 slips past
it: `"%(x"` fails with the unresolved-parameter abort for the truncated
empty name sliced out by `inStr[2:-1]`, not with the malformed-template
abort. -/
theorem C4_counterexample :
    interpolateString ctxPercent (.vStr (cs "%(x")) none none =
      .error (.unresolved []) ∧
    (.error (.unresolved []) : Except Err Value) ≠
      .error (.malformed (cs "%(x")) := by
  refine ⟨by decide, by decide⟩

/-- Claim C4, amended: a template whose first `%(` sits at an index
greater than 0 and has no `)` after it fails with the malformed-template
abort, for any namespace contents. -/
theorem C4_amended_malformed (ctx : Ctx)
    (inputData : Option (List (Str × Value)))
    (inputFmt : Option (Option Str)) (s : Str) (iB : Nat)
    (h1 : pyFind s (cs "%(") 0 = some iB) (h2 : 0 < iB)
    (h3 : pyFind s (cs ")") (iB + 1) = none) :
    interpolateString ctx (.vStr s) inputData inputFmt =
      .error (.malformed s) := by
  obtain ⟨f, hf⟩ : ∃ f, interpFuel ctx inputData (.vStr s) = f + 2 :=
    ⟨interpFuel ctx inputData (.vStr s) - 2, by unfold interpFuel; omega⟩
  unfold interpolateString
  rw [hf]
  simp only [interpStep, h1, h3]
  simp [h2]

/-- Witness for the amended claim C4 at the spec's example `"abc %(x"`. -/
theorem C4_amended_malformed_witness :
    pyFind (cs "abc %(x") (cs "%(") 0 = some 4 ∧ 0 < 4 ∧
    pyFind (cs "abc %(x") (cs ")") 5 = none ∧
    interpolateString ctxPercent (.vStr (cs "abc %(x")) none none =
      .error (.malformed (cs "abc %(x")) :=
  ⟨by decide, by decide, by decide,
    C4_amended_malformed ctxPercent none none (cs "abc %(x") 4 (by decide)
      (by decide) (by decide)⟩

/-! ## Claim C6: which type tag is recorded for batch submission -/

/-- Claim C6, counterexample: a file definition tagged with the literal
`"batch"` renders successfully but its output path is *not* appended to
the shared list — line 461 records only the literal type `'pbs'`. -/
theorem C6_counterexample :
    fdefBatch.ftype = .vStr (cs "batch") ∧
    processSingleFile ctxEx fdefBatch [] fsEx [] =
      ([.readFile (cs "/t.in"), .writeFile (cs "/out.txt") (cs "hello")],
       [], none) := by
  refine ⟨rfl, by decide⟩

/-- Claim C6, amended: the meaningful type tag is the literal `"pbs"`:
a file definition with any other tag (including `"batch"`) leaves the
shared list unchanged, and a `"pbs"`-tagged definition appends its
resolved output path on success (worked example). -/
theorem C6_amended_pbs_marker :
    (∀ (ctx : Ctx) (fdef : FileDef) (inst : List (Str × Value))
      (fs : Str → Option Str) (pbs : List Str),
      fdef.ftype ≠ .vStr (cs "pbs") →
      (processSingleFile ctx fdef inst fs pbs).2.1 = pbs) ∧
    processSingleFile ctxEx fdefPbs [] fsEx [] =
      ([.readFile (cs "/t.in"), .writeFile (cs "/out.txt") (cs "hello"),
        .recordPbs (cs "/out.txt")], [cs "/out.txt"], none) := by
  constructor
  · intro ctx fdef inst fs pbs h
    unfold processSingleFile
    split
    · rfl
    · split
      · simp_all
      · dsimp only
        repeat' split
        all_goals rfl
  · decide

/-- Witness for the amended claim C6 at the `"batch"`-tagged file
definition. -/
theorem C6_amended_pbs_marker_witness :
    fdefBatch.ftype ≠ .vStr (cs "pbs") ∧
    (processSingleFile ctxEx fdefBatch [] fsEx []).2.1 = [] :=
  ⟨by decide, C6_amended_pbs_marker.1 ctxEx fdefBatch [] fsEx [] (by decide)⟩

/-! ## Claim C7: idempotence of interpolation -/

/-- Claim C7, counterexample: in the template `"%(a)(b"` with the
resolvable binding `a ↦ "%"`, the substituted `"%"` lands directly before
the literal `"(b"`, so the output `"%(b"` *does* contain an unresolved
`%(` marker, and interpolating that output again aborts (unresolved
truncated name) instead of returning it unchanged. -/
theorem C7_counterexample :
    interpolateString ctxPercent (.vStr (cs "%(a)(b")) none none =
      .ok (.vStr (cs "%(b")) ∧
    pyFind (cs "%(b") (cs "%(") 0 = some 0 ∧
    interpolateString ctxPercent (.vStr (cs "%(b")) none none =
      .error (.unresolved []) := by
  refine ⟨by decide, by decide, by decide⟩

/-- Claim C7, amended: interpolation is the identity on every string that
contains no `%(` marker — so a *second* interpolation returns the first
output unchanged whenever that output is marker-free; but the first
output can contain a fresh `%(` marker assembled from a resolved value
and adjacent literal text (counterexample above), in which case
re-interpolation does not reproduce it. -/
theorem C7_amended_idempotence (ctx : Ctx)
    (inputData : Option (List (Str × Value)))
    (inputFmt : Option (Option Str)) (s : Str)
    (h : pyFind s (cs "%(") 0 = none) :
    interpolateString ctx (.vStr s) inputData inputFmt = .ok (.vStr s) := by
  obtain ⟨f, hf⟩ : ∃ f, interpFuel ctx inputData (.vStr s) = f + 2 :=
    ⟨interpFuel ctx inputData (.vStr s) - 2, by unfold interpFuel; omega⟩
  unfold interpolateString
  rw [hf]
  simp only [interpStep, h]
  simp

/-- Witness for the amended claim C7 at the marker-free string
`"hello"`. -/
theorem C7_amended_idempotence_witness :
    pyFind (cs "hello") (cs "%(") 0 = none ∧
    interpolateString ctxPercent (.vStr (cs "hello")) none none =
      .ok (.vStr (cs "hello")) :=
  ⟨by decide,
    C7_amended_idempotence ctxPercent none none (cs "hello") (by decide)⟩

/-! ## Claim C8: the batch submission script -/

theorem foldl_append_eq_flatMap (g : Str → Str) (files : List Str) :
    ∀ init : Str,
      files.foldl (fun acc f => acc ++ g f) init = init ++ files.flatMap g := by
  induction files with
  | nil => intro init; simp
  | cons a t ih => intro init; simp [ih, List.append_assoc]

/-- Claim C8: with an empty recorded list no script is produced; on a
non-empty list exactly one script is produced whose content is the
shebang header followed by one
`cd <dir> && <subcommand> <basename> && cd -` line per recorded path in
append order; worked example with two recorded outputs. -/
theorem C8_batch_script :
    (∀ ctx : Ctx, constructPbsSubmitScript ctx [] = .ok none) ∧
    (∀ (cmd : Str) (files : List Str),
      pbsScriptContent cmd files =
        cs "#!/bin/bash" ++ ['\n'] ++ files.flatMap (pbsLine cmd)) ∧
    constructPbsSubmitScript ctxEx [cs "/a/b/f1.pbs", cs "/c/d/f2.pbs"] =
      .ok (some (cs "/w/pbs_submit.sh",
        cs "#!/bin/bash\ncd /a/b && qsub f1.pbs && cd -\ncd /c/d && qsub f2.pbs && cd -\n")) := by
  refine ⟨fun ctx => by simp [constructPbsSubmitScript], ?_, by decide⟩
  intro cmd files
  unfold pbsScriptContent
  rw [foldl_append_eq_flatMap]

/-! ## Claim C9: fixed precedence of name resolution -/

/-- Claim C9: resolution is a pure function of the layer contents — any
two resolutions against the same layers agree — and it always takes the
value from the fixed precedence chain driver > user > per-instance input >
execution-context(thread): the first of these layers containing the name
wins, and in particular a name present in the driver layer always
resolves there. -/
theorem C9_precedence :
    (∀ (ti : List (Str × Value)) (idata : Option (List (Str × Value)))
      (ud dd : List (Str × Value)) (k : Str),
      resolveName ti idata ud dd k =
        ((((lookupKey dd k).or (lookupKey ud k)).or
          (match idata with | some d => lookupKey d k | none => none)).or
          (lookupKey ti k)).getD .vNone) ∧
    (∀ (ti : List (Str × Value)) (idata : Option (List (Str × Value)))
      (ud dd : List (Str × Value)) (k : Str) (v : Value),
      lookupKey dd k = some v → resolveName ti idata ud dd k = v) := by
  have main : ∀ (ti : List (Str × Value))
      (idata : Option (List (Str × Value))) (ud dd : List (Str × Value))
      (k : Str),
      resolveName ti idata ud dd k =
        ((((lookupKey dd k).or (lookupKey ud k)).or
          (match idata with | some d => lookupKey d k | none => none)).or
          (lookupKey ti k)).getD .vNone := by
    intro ti idata ud dd k
    unfold resolveName
    rcases idata with _ | d
    · rcases h1 : lookupKey dd k with _ | v1 <;>
        rcases h2 : lookupKey ud k with _ | v2 <;>
          rcases h3 : lookupKey ti k with _ | v3 <;>
            simp [Option.or, h1, h2, h3]
    · rcases h1 : lookupKey dd k with _ | v1 <;>
        rcases h2 : lookupKey ud k with _ | v2 <;>
          rcases h4 : lookupKey d k with _ | v4 <;>
            rcases h3 : lookupKey ti k with _ | v3 <;>
              simp [Option.or, h1, h2, h3, h4]
  refine ⟨main, fun ti idata ud dd k v hv => ?_⟩
  rw [main ti idata ud dd k, hv]
  simp [Option.or]

/-- Witness for claim C9: the name `k` is present in all four layers with
distinct values and resolves to the driver layer's value. -/
theorem C9_precedence_witness :
    lookupKey [(cs "k", Value.vInt 1)] (cs "k") = some (.vInt 1) ∧
    resolveName [(cs "k", .vInt 4)] (some [(cs "k", .vInt 3)])
      [(cs "k", .vInt 2)] [(cs "k", .vInt 1)] (cs "k") = .vInt 1 :=
  ⟨rfl, C9_precedence.2 [(cs "k", .vInt 4)] (some [(cs "k", .vInt 3)])
    [(cs "k", .vInt 2)] [(cs "k", .vInt 1)] (cs "k") (.vInt 1) rfl⟩

/-! ## Claim C10: a `None` parameters field -/

/-- Claim C10: when a file definition's `parameters` field kept its `None`
default, `processSingleFile` fails at the `{**data, **parameters}` merge —
a `TypeError`, raised before the template file is even read (the effect
trace is empty) — and a file definition renders without error only when
its `parameters` field is a mapping. -/
theorem C10_parameters_none_fails :
    (∀ (ctx : Ctx) (fdef : FileDef) (inst : List (Str × Value))
      (fs : Str → Option Str) (pbs : List Str),
      fdef.parameters = none →
      processSingleFile ctx fdef inst fs pbs = ([], pbs, some .typeError)) ∧
    (∀ (ctx : Ctx) (fdef : FileDef) (inst : List (Str × Value))
      (fs : Str → Option Str) (pbs : List Str) (tr : List FEff)
      (pbs' : List Str),
      processSingleFile ctx fdef inst fs pbs = (tr, pbs', none) →
      fdef.parameters ≠ none) := by
  have main : ∀ (ctx : Ctx) (fdef : FileDef) (inst : List (Str × Value))
      (fs : Str → Option Str) (pbs : List Str),
      fdef.parameters = none →
      processSingleFile ctx fdef inst fs pbs = ([], pbs, some .typeError) := by
    intro ctx fdef inst fs pbs h
    unfold processSingleFile
    rw [h]
  refine ⟨main, fun ctx fdef inst fs pbs tr pbs' h hnone => ?_⟩
  rw [main ctx fdef inst fs pbs hnone] at h
  simp at h

/-- Witness for claim C10 at the parameter-less file definition. -/
theorem C10_parameters_none_fails_witness :
    fdefNone.parameters = none ∧
    processSingleFile ctxEx fdefNone [] fsEx [] = ([], [], some .typeError) :=
  ⟨rfl, C10_parameters_none_fails.1 ctxEx fdefNone [] fsEx [] rfl⟩

end Chauffeur
